import Mathlib

/-!
GameAudio wrappers: `Stream` and `Sound2D`

A shallow embedding of the two wrapper classes declared in
`GameAudio/Stream/Stream.h` and `GameAudio/Sound/Sound2D.h`.

Every member function becomes a pure function on the object state: a `void`
mutator returns the state after the call, an accessor returns the value read.
The base classes (`Channel`, `Sound`) are declared in headers that are not part
of the sources, so the state they contribute is a type parameter of the
derived object.
-/

namespace GameAudio

/-! ## Primitive types -/

/-- A `std::string`: a finite sequence of `char` values (bytes) -/
abbrev StdString := List (Fin 256)

/-- A raw pointer (`FMOD_SOUND*`), kept as its address -/
abbrev Ptr := Nat

/-- The null pointer -/
def NULL : Ptr := 0

/-! ## `class Stream : public Channel` (Stream.h) -/

/-- The data members of `Stream` (Stream.h:311, 323, 342, 362), on top of the
state `Base` inherited from `Channel` -/
structure Stream (Base : Type) where
  /-- the inherited `Channel` sub-object -/
  toChannel : Base
  /-- Member `FMOD_SOUND* pFMODSound;` -/
  pFMODSound : Ptr
  /-- Member `std::string filename;` -/
  filename : StdString
  /-- Member `bool enabledFlag;` -/
  enabledFlag : Bool
  /-- Member `std::string name;` -/
  name : StdString
deriving DecidableEq

namespace Stream

variable {Base : Type}

/-- Embeds `Stream& operator=(const Stream& other) { return *this; }` (Stream.h:64):
the state of `*this` after the call, paired with the object that the returned
reference designates -/
def assign (self _other : Stream Base) : Stream Base × Stream Base :=
  (self, self)

/-- Embeds `virtual FMOD_SOUND* getFMODSound() { return this->pFMODSound; }` -/
def getFMODSound (self : Stream Base) : Ptr :=
  self.pFMODSound

/-- Embeds `virtual std::string getFilename() { return this->filename; }` -/
def getFilename (self : Stream Base) : StdString :=
  self.filename

/-- Embeds `virtual bool isEnabled() { return this->enabledFlag; }` -/
def isEnabled (self : Stream Base) : Bool :=
  self.enabledFlag

/-- Embeds `virtual void setEnabled(bool state) { this->enabledFlag = state; }` -/
def setEnabled (self : Stream Base) (state : Bool) : Stream Base :=
  { self with enabledFlag := state }

/-- Embeds `virtual void enable() { this->enabledFlag = true; }` -/
def enable (self : Stream Base) : Stream Base :=
  { self with enabledFlag := true }

/-- Embeds `virtual void disable() { this->enabledFlag = false; }` -/
def disable (self : Stream Base) : Stream Base :=
  { self with enabledFlag := false }

/-- Embeds `virtual std::string getName() { return this->name; }` -/
def getName (self : Stream Base) : StdString :=
  self.name

/-- Embeds `virtual void setName(std::string name) { this->name = name; }` -/
def setName (self : Stream Base) (name : StdString) : Stream Base :=
  { self with name := name }

/-- Embeds `virtual bool isNamed() { return (this->name.size() > 0); }` -/
def isNamed (self : Stream Base) : Bool :=
  decide (self.name.length > 0)

/-- Embeds `virtual void clearName() { this->name.clear(); }` -/
def clearName (self : Stream Base) : Stream Base :=
  { self with name := [] }

end Stream

/-! ## `class Sound2D : public Sound` (Sound2D.h) -/

/-- The data members of `Sound2D` (Sound2D.h:168-188), on top of the state
`Base` inherited from `Sound`; `F` stands for the C++ type `float` -/
structure Sound2D (Base F : Type) where
  /-- the inherited `Sound` sub-object -/
  toSound : Base
  /-- Member `float x;` -/
  x : F
  /-- Member `float y;` -/
  y : F
  /-- Member `float xVelocity;` -/
  xVelocity : F
  /-- Member `float yVelocity;` -/
  yVelocity : F
  /-- Member `float minDistance;` -/
  minDistance : F
  /-- Member `float maxDistance;` -/
  maxDistance : F
  /-- Member `float level;` -/
  level : F
  /-- Member `float dopplerLevel;` -/
  dopplerLevel : F
  /-- Member `bool distanceFilterFlag;` -/
  distanceFilterFlag : Bool
  /-- Member `float customLevel;` -/
  customLevel : F
  /-- Member `float centreFrequency;` -/
  centreFrequency : F
deriving DecidableEq

namespace Sound2D

variable {Base F : Type}

/-- Embeds `Sound2D& operator=(const Sound2D& other) { return *this; }`
(Sound2D.h:62): the state of `*this` after the call, paired with the object
that the returned reference designates -/
def assign (self _other : Sound2D Base F) : Sound2D Base F × Sound2D Base F :=
  (self, self)

end Sound2D

/-! ## Playback state and resource release

`Stream.h` only declares `isPaused`, `setPaused`, `pause`, `resume`,
`getLoopCount`, `setLoopCount` and `free`; their bodies (Stream.cpp) and the
base class `Channel` (Channel/Channel.h) are not part of the sources. They are
modelled from the specification. -/

/-- Modelled from the spec: the state of the base class `Channel`
(Channel/Channel.h is missing) that the playback operations of a Stream use.
§3 lists it for StreamingChannel: "paused: bool; looping: bool; loopCount: int,
-1 = infinite, 0 = once, n>0 = once + n repeats". -/
structure Channel where
  /-- paused: bool -/
  pausedFlag : Bool
  /-- looping: bool -/
  loopFlag : Bool
  /-- loopCount: int -/
  loopCount : Int
deriving DecidableEq

/-- Modelled from the spec: the behaviour of the external audio engine on
parameters outside the documented domain (the engine itself is missing). §7(b):
invalid parameters "are not validated locally — they are the engine's
responsibility, and its failure behavior (silently clamped vs. ignored) must be
documented by that collaborator, not assumed". -/
structure Engine where
  /-- the loop count in force after a request below -1, from the count in
  force before and the requested count -/
  invalidLoopCount : Int → Int → Int

namespace Stream

variable {Base : Type}

/-- Modelled from the spec: `Stream::isPaused()` (declared Stream.h:99, body
missing). §4.2: "explicit pause state machine"; reads the paused flag of §3. -/
def isPaused (self : Stream Channel) : Bool :=
  self.toChannel.pausedFlag

/-- Modelled from the spec: `Stream::setPaused(bool pausedFlag)` (declared
Stream.h:102, body missing), "true to pause, false to resume". §8:
"`setPaused(true)` followed by `isPaused()` returns `true`". -/
def setPaused (self : Stream Channel) (pausedFlag : Bool) : Stream Channel :=
  { self with toChannel := { self.toChannel with pausedFlag := pausedFlag } }

/-- Modelled from the spec: `Stream::pause()` (declared Stream.h:104, body
missing). §4.2: "`pause`/`resume` are convenience wrappers over
`setPaused(true/false)`". -/
def pause (self : Stream Channel) : Stream Channel :=
  self.setPaused true

/-- Modelled from the spec: `Stream::resume()` (declared Stream.h:106, body
missing). §4.2: "`pause`/`resume` are convenience wrappers over
`setPaused(true/false)`". -/
def resume (self : Stream Channel) : Stream Channel :=
  self.setPaused false

/-- Modelled from the spec: `Stream::getLoopCount()` (declared Stream.h:118,
body missing), "-1 for endless, 0 for once, anything higher is once plus
value"; reads the loop count of §3. -/
def getLoopCount (self : Stream Channel) : Int :=
  self.toChannel.loopCount

/-- Modelled from the spec: `Stream::setLoopCount(int loopCount)` (declared
Stream.h:121, body missing). §4.2/§8: a count in the documented domain
(-1 endless, 0 once, n>0 once plus n repeats) is the one `getLoopCount()`
returns afterwards; §7(b): a count outside it is not validated here and is
whatever the engine makes of it. -/
def setLoopCount (engine : Engine) (self : Stream Channel) (loopCount : Int) :
    Stream Channel :=
  if -1 ≤ loopCount then
    { self with toChannel := { self.toChannel with loopCount := loopCount } }
  else
    { self with toChannel :=
        { self.toChannel with
          loopCount := engine.invalidLoopCount self.toChannel.loopCount loopCount } }

/-- Modelled from the spec: the state `Unloaded` of the StreamingChannel state
machine (§4.2), the one in which no sound handle is held: the accessor
`getFMODSound` "returns null/empty". -/
def isUnloaded (self : Stream Base) : Bool :=
  decide (self.getFMODSound = NULL)

/-- Modelled from the spec: `Stream::free()` (declared Stream.h:84, body
missing). §3: "soundHandle: AudioHandle (owned, released on `free`)"; §4.2:
"`free()` must release the owned sound handle exactly once (idempotent)"; §8: a
second call "is a no-op, no crash, state remains `Unloaded`". The result is the
state after the call and the handles this call hands back to the engine for
release. -/
def free (self : Stream Base) : Stream Base × List Ptr :=
  if self.pFMODSound = NULL then
    (self, [])
  else
    ({ self with pFMODSound := NULL }, [self.pFMODSound])

end Stream

/-! ## Loading

`Stream.h` only declares `load` and `isPlaying`; their bodies (Stream.cpp) and
the engine they call are not part of the sources. -/

/-- Modelled from the spec: what `Stream::load` depends on and the sources do
not contain. §6: the engine can "open/decode a streamed sound from a file
path"; §7(a): acquiring the resource can fail. §8 leaves the filename after a
failed load open: it "reflects the attempted path or is undefined per spec
choice". -/
structure Loader where
  /-- the engine opening the file at a path: the sound handle on success,
  `none` when the engine cannot open the file -/
  openStream : StdString → Option Ptr
  /-- the filename the object carries after a failed load, from the filename
  it carried before and the attempted path -/
  filenameOnFailure : StdString → StdString → StdString

namespace Stream

variable {Base : Type}

/-- Modelled from the spec: `Stream::load(std::string filename)` (declared
Stream.h:73 "true on success false on failure", body missing). §4.2: "opens
... the resource at `filename` via the engine; returns success/failure boolean;
failure leaves the object without a valid handle"; state machine: "`load`
failure keeps state at `Unloaded`"; §7(a): on failure "`load` returns `false`,
object remains in `Unloaded` state, no exception". The result is the state
after the call and the boolean returned. -/
def load (loader : Loader) (self : Stream Base) (filename : StdString) :
    Stream Base × Bool :=
  match loader.openStream filename with
  | some sound =>
    ({ self with pFMODSound := sound, filename := filename }, true)
  | none =>
    ({ self with filename := loader.filenameOnFailure self.filename filename }, false)

/-- Modelled from the spec: `Stream::isPlaying()` (declared Stream.h:109, body
missing). §4.2: "true while the engine reports active playback"; in the state
machine of §4.2 playback exists only between `load` success and `free`, that is
while a sound handle is held, and §8 requires `isPlaying()` to be false on an
Unloaded stream. `engineReportsPlayback` is the engine's answer for a held
handle. -/
def isPlaying (engineReportsPlayback : Ptr → Bool) (self : Stream Base) : Bool :=
  !self.isUnloaded && engineReportsPlayback self.pFMODSound

end Stream

/-! ## Theorems -/

/-- C1: for every Stream state and every boolean `b`, `setEnabled(b)` followed
by `isEnabled()` returns `b`, whatever the flag held before. -/
theorem Stream.isEnabled_setEnabled {Base : Type} (s : Stream Base) (b : Bool) :
    (s.setEnabled b).isEnabled = b := by
  rfl

/-- C2: for every Stream state and every string `n`, `setName(n)` followed by
`getName()` returns exactly `n`; `setName` is a total state update that never
rejects a name, and in particular the name carried by any other Stream `t` is
accepted and read back unchanged (no uniqueness is enforced). -/
theorem Stream.getName_setName {Base : Type} (s t : Stream Base) (n : StdString) :
    (s.setName n).getName = n ∧
      (s.setName t.getName).getName = t.getName := by
  exact ⟨rfl, rfl⟩

/-- C3: for every Stream state, `isNamed()` is true if and only if `getName()`
is a non-empty string; after `setName("")` it is false, and after `setName(n)`
with `n` non-empty it is true. -/
theorem Stream.isNamed_iff_getName_nonempty {Base : Type} (s : Stream Base) :
    (s.isNamed = true ↔ s.getName ≠ []) ∧
      (s.setName []).isNamed = false ∧
      ∀ n : StdString, n ≠ [] → (s.setName n).isNamed = true := by
  refine ⟨?_, ?_, ?_⟩
  · simp [Stream.isNamed, Stream.getName, List.length_pos]
  · simp [Stream.isNamed, Stream.setName]
  · intro n hn
    simp [Stream.isNamed, Stream.setName, List.length_pos, hn]

/-- Witness for C3: on a fresh unnamed Stream, the three-character name "bgm"
is non-empty and `isNamed()` is true after `setName("bgm")`. -/
theorem Stream.isNamed_iff_getName_nonempty_witness :
    ([98, 103, 109] : StdString) ≠ [] ∧
      (Stream.setName (Stream.mk () NULL [] false []) [98, 103, 109]).isNamed = true :=
  ⟨by decide,
    (Stream.isNamed_iff_getName_nonempty (Stream.mk () NULL [] false [])).2.2
      [98, 103, 109] (by decide)⟩

/-- C4: for every Stream state, after `clearName()` the call `getName()`
returns the empty string and `isNamed()` returns false; calling `clearName()`
twice yields the same state as calling it once. -/
theorem Stream.clearName_spec {Base : Type} (s : Stream Base) :
    s.clearName.getName = [] ∧ s.clearName.isNamed = false ∧
      s.clearName.clearName = s.clearName := by
  refine ⟨rfl, ?_, rfl⟩
  simp [Stream.isNamed, Stream.clearName]

/-- C5: `setEnabled(b)`, `enable()` and `disable()` change only `enabledFlag`:
each of the three resulting states is the old state with a new flag, so the
sound handle (`getFMODSound`), the filename (`getFilename`), the name
(`getName`, `isNamed`) and the inherited `Channel` state are exactly as they
were. -/
theorem Stream.enabled_frame {Base : Type} (s : Stream Base) (b : Bool) :
    ∀ t ∈ [s.setEnabled b, s.enable, s.disable],
      t = { s with enabledFlag := t.enabledFlag } ∧
      t.getFMODSound = s.getFMODSound ∧ t.getFilename = s.getFilename ∧
      t.getName = s.getName ∧ t.isNamed = s.isNamed ∧
      t.toChannel = s.toChannel := by
  intro t ht
  simp only [List.mem_cons, List.mem_singleton, List.not_mem_nil, or_false] at ht
  rcases ht with rfl | rfl | rfl <;> exact ⟨rfl, rfl, rfl, rfl, rfl, rfl⟩

/-- Witness for C5: on a disabled Stream holding handle 7, filename "a" and
name "b", `enable()` is one of the three operations and leaves handle,
filename and name as they were. -/
theorem Stream.enabled_frame_witness :
    (Stream.mk () 7 [97] false [98]).enable ∈
        [(Stream.mk () 7 [97] false [98]).setEnabled true,
          (Stream.mk () 7 [97] false [98]).enable,
          (Stream.mk () 7 [97] false [98]).disable] ∧
      (Stream.mk () 7 [97] false [98]).enable.getFMODSound = 7 ∧
      (Stream.mk () 7 [97] false [98]).enable.getFilename = [97] ∧
      (Stream.mk () 7 [97] false [98]).enable.getName = [98] :=
  have h := Stream.enabled_frame (Stream.mk () 7 [97] false [98]) true
    (Stream.mk () 7 [97] false [98]).enable (by decide)
  ⟨by decide, h.2.1, h.2.2.1, h.2.2.2.1⟩

/-- C6: for every Stream state, `enable()` produces the same state as
`setEnabled(true)` and `disable()` the same state as `setEnabled(false)`; hence
`isEnabled()` is true after `enable()` and false after `disable()`, whatever
the flag held before. -/
theorem Stream.enable_disable_eq_setEnabled {Base : Type} (s : Stream Base) :
    s.enable = s.setEnabled true ∧ s.disable = s.setEnabled false ∧
      s.enable.isEnabled = true ∧ s.disable.isEnabled = false := by
  exact ⟨rfl, rfl, rfl, rfl⟩

/-- C7: copying by assignment transfers nothing, for both wrappers: for every
pair of Sound2D objects `a`, `b` and every pair of Stream objects `c`, `d`, after
`a = b` (resp. `c = d`) the target is in the state it had before, so every one
of its fields keeps its prior value, and the reference returned is the target
itself. -/
theorem assign_transfers_nothing {B B' F : Type} (a b : Sound2D B F)
    (c d : Stream B') :
    (Sound2D.assign a b).1 = a ∧ (Sound2D.assign a b).2 = a ∧
      (Stream.assign c d).1 = c ∧ (Stream.assign c d).2 = c := by
  exact ⟨rfl, rfl, rfl, rfl⟩

/-- C8: for every loop count `n` with `n ≥ -1` (-1 endless, 0 play once, 3 once
plus three repeats, ...), `setLoopCount(n)` followed by `getLoopCount()`
returns `n`, whatever the engine does with counts outside the domain. -/
theorem Stream.getLoopCount_setLoopCount (engine : Engine) (s : Stream Channel)
    (n : Int) (h : -1 ≤ n) :
    (s.setLoopCount engine n).getLoopCount = n := by
  simp [Stream.setLoopCount, Stream.getLoopCount, h]

/-- Witness for C8: with an engine that ignores invalid counts, on a Stream
whose loop count was 0, `setLoopCount(3)` then `getLoopCount()` gives 3. -/
theorem Stream.getLoopCount_setLoopCount_witness :
    (-1 : Int) ≤ 3 ∧
      (Stream.setLoopCount (Engine.mk (fun cur _ => cur))
        (Stream.mk (Channel.mk false false 0) 7 [97] true []) 3).getLoopCount = 3 :=
  ⟨by decide,
    Stream.getLoopCount_setLoopCount (Engine.mk (fun cur _ => cur))
      (Stream.mk (Channel.mk false false 0) 7 [97] true []) 3 (by decide)⟩

/-- C9: for every Stream state, `setPaused(true)` followed by `isPaused()`
returns true and `resume()` followed by `isPaused()` returns false; `pause()`
and `resume()` produce exactly the states of `setPaused(true)` and
`setPaused(false)`. -/
theorem Stream.paused_spec (s : Stream Channel) :
    (s.setPaused true).isPaused = true ∧ s.resume.isPaused = false ∧
      s.pause = s.setPaused true ∧ s.resume = s.setPaused false := by
  exact ⟨rfl, rfl, rfl, rfl⟩

/-- C10: `free()` is idempotent: for every Stream state, a second `free()`
right after a first one is a no-op (same state, nothing handed to the engine),
the state after `free()` is Unloaded (no sound handle held), and over the two
calls the handle owned at the start, if any, is released exactly once. -/
theorem Stream.free_idempotent {Base : Type} (s : Stream Base) :
    s.free.1.free = (s.free.1, []) ∧
      s.free.1.getFMODSound = NULL ∧ s.free.1.isUnloaded = true ∧
      s.free.2 ++ s.free.1.free.2 =
        (if s.getFMODSound = NULL then [] else [s.getFMODSound]) := by
  by_cases h : s.pFMODSound = NULL
  · simp [Stream.free, Stream.getFMODSound, Stream.isUnloaded, h]
  · simp [Stream.free, Stream.getFMODSound, Stream.isUnloaded, h]

/-- C11: when the engine cannot open the file, `load(filename)` on an Unloaded
stream returns false and leaves the stream Unloaded: afterwards
`getFMODSound()` returns null and `isPlaying()` is false, whatever the engine
would report. -/
theorem Stream.load_failure_keeps_unloaded {Base : Type} (loader : Loader)
    (engineReportsPlayback : Ptr → Bool) (s : Stream Base) (filename : StdString)
    (hs : s.isUnloaded = true) (hfail : loader.openStream filename = none) :
    (s.load loader filename).2 = false ∧
      (s.load loader filename).1.isUnloaded = true ∧
      (s.load loader filename).1.getFMODSound = NULL ∧
      (s.load loader filename).1.isPlaying engineReportsPlayback = false := by
  have hp : s.pFMODSound = NULL := by
    simpa [Stream.isUnloaded, Stream.getFMODSound] using hs
  simp [Stream.load, hfail, Stream.isUnloaded, Stream.getFMODSound,
    Stream.isPlaying, hp]

/-- Witness for C11: an engine that can open no file at all, asked by a fresh
Stream to load "x": the call returns false, no handle is held and nothing
plays, even if the engine claimed playback for every handle. -/
theorem Stream.load_failure_keeps_unloaded_witness :
    (Stream.mk () NULL [] false []).isUnloaded = true ∧
      (Loader.mk (fun _ => none) (fun _ attempted => attempted)).openStream [120] = none ∧
      ((Stream.mk () NULL [] false []).load
        (Loader.mk (fun _ => none) (fun _ attempted => attempted)) [120]).2 = false ∧
      ((Stream.mk () NULL [] false []).load
        (Loader.mk (fun _ => none) (fun _ attempted => attempted)) [120]).1.getFMODSound
          = NULL :=
  have h := Stream.load_failure_keeps_unloaded
    (Loader.mk (fun _ => none) (fun _ attempted => attempted)) (fun _ => true)
    (Stream.mk () NULL [] false []) [120] (by decide) rfl
  ⟨by decide, rfl, h.1, h.2.2.1⟩

/-- C13: for every Stream state, `setName(n)` and `clearName()` change only the
name field: each resulting state is the old state with a new name, so
`isEnabled()`, `getFilename()` and `getFMODSound()` return the same values
after the call as before it, and the inherited `Channel` state is untouched. -/
theorem Stream.name_frame {Base : Type} (s : Stream Base) (n : StdString) :
    (s.setName n = { s with name := n } ∧
      (s.setName n).isEnabled = s.isEnabled ∧
      (s.setName n).getFilename = s.getFilename ∧
      (s.setName n).getFMODSound = s.getFMODSound ∧
      (s.setName n).toChannel = s.toChannel) ∧
    (s.clearName = { s with name := [] } ∧
      s.clearName.isEnabled = s.isEnabled ∧
      s.clearName.getFilename = s.getFilename ∧
      s.clearName.getFMODSound = s.getFMODSound ∧
      s.clearName.toChannel = s.toChannel) := by
  exact ⟨⟨rfl, rfl, rfl, rfl, rfl⟩, ⟨rfl, rfl, rfl, rfl, rfl⟩⟩

end GameAudio
